import Mathlib

/-!
Formal model of the multi-factor attendance verification core
(backend/app/services/verification.py, attendance.py, anomaly.py and
backend/app/ml/face_recognition.py), embedded shallowly in Lean.

Python floats are modelled as exact rationals; optional arguments are
`Option` values, and Python truthiness of strings and byte strings
(`None` and the empty value are falsy) is modelled explicitly.  The
external ML comparators (face, OCR, fingerprint) are opaque collaborators
and appear as function-valued parameters.
-/

namespace AttendanceCore

/-- Python truthiness of an optional string argument: `None` and `""` are falsy. -/
def strTruthy : Option String → Bool
  | none => false
  | some s => !s.isEmpty

/-- Python truthiness of an optional byte string: `None` and `b""` are falsy.
Byte strings are modelled as lists of naturals. -/
def bytesTruthy : Option (List Nat) → Bool
  | none => false
  | some b => !b.isEmpty

/-- Result of multi-factor verification (`VerificationResult` dataclass,
verification.py lines 18-32; the pydantic `AttendanceVerificationResult`
schema has the same fields and defaults and is represented by the same type). -/
structure VerificationResult where
  success : Bool
  face_verified : Bool := false
  face_confidence : ℚ := 0
  id_card_verified : Bool := false
  id_card_confidence : ℚ := 0
  fingerprint_verified : Bool := false
  overall_confidence : ℚ := 0
  verification_method : String := ""
  message : String := ""
  anomaly_detected : Bool := false
  anomaly_reason : Option String := none
deriving DecidableEq

/-- The external biometric comparators (face_recognition_service,
id_validation_service, fingerprint_service), abstract collaborators.
`validate_id_card` returns (is_valid, confidence, extracted-fields blob). -/
structure Comparators where
  compare_faces_from_base64 : List Nat → String → Bool × ℚ
  validate_id_card : String → String → String → Bool × ℚ × List (String × String)
  fingerprint_compare : String → String → Bool × ℚ

/-- `VerificationService.verify_face` (verification.py lines 58-76). -/
def verify_face (cmp : Comparators) (face_image_base64 : String)
    (stored_embedding : List Nat) : Bool × ℚ :=
  if stored_embedding.isEmpty then (false, 0)
  else cmp.compare_faces_from_base64 stored_embedding face_image_base64

/-- `VerificationService.verify_id_card` (verification.py lines 78-95):
projects away the extracted-fields component. -/
def verify_id_card (cmp : Comparators) (id_card_image_base64 : String)
    (expected_roll_no expected_name : String) : Bool × ℚ :=
  let r := cmp.validate_id_card id_card_image_base64 expected_roll_no expected_name
  (r.1, r.2.1)

/-- `VerificationService.verify_fingerprint` (verification.py lines 97-115). -/
def verify_fingerprint (cmp : Comparators) (fingerprint_token : String)
    (stored_hash : String) : Bool × ℚ :=
  if stored_hash.isEmpty then (false, 0)
  else cmp.fingerprint_compare fingerprint_token stored_hash

/-- Weight of the face factor (verification.py line 54). -/
def face_weight : ℚ := 0.5

/-- Weight of the id-card factor (verification.py line 55). -/
def id_weight : ℚ := 0.3

/-- Weight of the fingerprint factor (verification.py line 56). -/
def fingerprint_weight : ℚ := 0.2

/-- `VerificationService.calculate_overall_confidence`
(verification.py lines 117-139). -/
def calculate_overall_confidence (face_confidence id_confidence : ℚ)
    (fingerprint_match : Bool) : ℚ :=
  let fingerprint_confidence : ℚ := if fingerprint_match then 0.95 else 0
  let overall :=
    face_confidence * face_weight
      + id_confidence * id_weight
      + fingerprint_confidence * fingerprint_weight
  min overall 1

/-- Factor gathering phase of `VerificationService.verify_student`
(verification.py lines 166-219): each factor is evaluated only when its
guard passes (Python truthiness of the raw input and, for face and
fingerprint, of the stored template).  Returns the face result, the
id-card result, and the fingerprint match flag (the fingerprint
confidence is discarded at the call site, line 210), each `none` when
the factor was skipped. -/
def verify_student_factors (cmp : Comparators)
    (student_roll_no student_name : String)
    (stored_face_embedding : Option (List Nat))
    (stored_fingerprint_hash : Option String)
    (face_image_base64 id_card_image_base64 fingerprint_token : Option String) :
    Option (Bool × ℚ) × Option (Bool × ℚ) × Option Bool :=
  let faceRes : Option (Bool × ℚ) :=
    match face_image_base64, stored_face_embedding with
    | some img, some emb =>
        if !img.isEmpty && !emb.isEmpty then some (verify_face cmp img emb) else none
    | _, _ => none
  let idRes : Option (Bool × ℚ) :=
    match id_card_image_base64 with
    | some img =>
        if !img.isEmpty then
          some (verify_id_card cmp img student_roll_no student_name)
        else none
    | none => none
  let fpRes : Option Bool :=
    match fingerprint_token, stored_fingerprint_hash with
    | some tok, some h =>
        if !tok.isEmpty && !h.isEmpty then some (verify_fingerprint cmp tok h).1
        else none
    | _, _ => none
  (faceRes, idRes, fpRes)

/-- The `verification_methods` list built in `verify_student`
(appends "face", "id_card", "fingerprint" in that order for each
evaluated factor). -/
def verification_methods (faceRes idRes : Option (Bool × ℚ))
    (fpRes : Option Bool) : List String :=
  (if faceRes.isSome then ["face"] else [])
    ++ (if idRes.isSome then ["id_card"] else [])
    ++ (if fpRes.isSome then ["fingerprint"] else [])

/-- Aggregation phase of `VerificationService.verify_student`
(verification.py lines 166-174 defaults and 221-299): computes the
overall confidence, the method descriptor and the tiered success
decision from the gathered factor results. -/
def verify_student_aggregate (min_face_confidence : ℚ)
    (faceRes idRes : Option (Bool × ℚ)) (fpRes : Option Bool) :
    VerificationResult :=
  let face_verified := (faceRes.getD (false, 0)).1
  let face_confidence := (faceRes.getD (false, 0)).2
  let id_verified := (idRes.getD (false, 0)).1
  let id_confidence := (idRes.getD (false, 0)).2
  let fingerprint_verified := fpRes.getD false
  let methods := verification_methods faceRes idRes fpRes
  let base : VerificationResult :=
    { success := false
      face_verified := face_verified
      face_confidence := face_confidence
      id_card_verified := id_verified
      id_card_confidence := id_confidence
      fingerprint_verified := fingerprint_verified
      overall_confidence :=
        calculate_overall_confidence face_confidence id_confidence fingerprint_verified
      verification_method :=
        if methods.isEmpty then "none" else String.intercalate "+" methods }
  if methods.length == 0 then
    { base with
      success := false
      message := "No verification data provided"
      anomaly_detected := true
      anomaly_reason := some "No biometric data provided for verification" }
  else if methods.length == 1 then
    let success :=
      if methods.contains "face" then
        face_verified && decide (min_face_confidence ≤ face_confidence)
      else if methods.contains "id_card" then id_verified
      else if methods.contains "fingerprint" then fingerprint_verified
      else false
    { base with
      success := success
      anomaly_detected := !success
      anomaly_reason :=
        if success then none
        else some ("Single factor verification failed: " ++ methods.headD "")
      message := "Single factor (" ++ methods.headD "" ++ ") verification" }
  else if methods.length == 2 then
    let passed :=
      (methods.filter fun m =>
        (m == "face" && face_verified) || (m == "id_card" && id_verified)
          || (m == "fingerprint" && fingerprint_verified)).length
    let success := passed == 2
    { base with
      success := success
      anomaly_detected := !success
      anomaly_reason :=
        if success then none
        else some ("Two-factor verification failed: only " ++ toString passed ++ "/2 passed")
      message := "Two-factor verification: " ++ toString passed ++ "/2 passed" }
  else
    let all_passed := face_verified && id_verified && fingerprint_verified
    let failed :=
      (if face_verified then [] else ["face"])
        ++ (if id_verified then [] else ["id_card"])
        ++ (if fingerprint_verified then [] else ["fingerprint"])
    { base with
      success := all_passed
      anomaly_detected := !all_passed
      anomaly_reason :=
        if all_passed then none
        else some ("Multi-factor verification failed: " ++ String.intercalate ", " failed)
      message :=
        "Three-factor verification" ++ (if all_passed then " passed" else " failed") }

/-- `VerificationService.verify_student` (verification.py lines 141-299):
factor gathering followed by aggregation. -/
def verify_student (min_face_confidence : ℚ) (cmp : Comparators)
    (student_roll_no student_name : String)
    (stored_face_embedding : Option (List Nat))
    (stored_fingerprint_hash : Option String)
    (face_image_base64 id_card_image_base64 fingerprint_token : Option String) :
    VerificationResult :=
  let f := verify_student_factors cmp student_roll_no student_name
    stored_face_embedding stored_fingerprint_hash
    face_image_base64 id_card_image_base64 fingerprint_token
  verify_student_aggregate min_face_confidence f.1 f.2.1 f.2.2

/-- Tiered success policy as the specification states it, over the
gathered factor results (spec-side reference definition): 0 applicable
factors never succeed; a single factor must report verified=true and,
for face, confidence at least the configured minimum; two factors must
both report verified=true; three factors must all report verified=true. -/
def tieredSuccessPolicy (min_face_confidence : ℚ)
    (faceRes idRes : Option (Bool × ℚ)) (fpRes : Option Bool) : Bool :=
  match faceRes, idRes, fpRes with
  | none, none, none => false
  | some (v, c), none, none => v && decide (min_face_confidence ≤ c)
  | none, some (v, _), none => v
  | none, none, some v => v
  | some (v1, _), some (v2, _), none => v1 && v2
  | some (v1, _), none, some v3 => v1 && v3
  | none, some (v2, _), some v3 => v2 && v3
  | some (v1, _), some (v2, _), some v3 => v1 && v2 && v3

/-- `Student` model (models/student.py), restricted to the fields the
verification, attendance and anomaly services read.  `roll_no`, `name`
and `college_id` are non-nullable columns; the biometric templates are
nullable. -/
structure Student where
  id : Nat
  roll_no : String
  name : String
  college_id : String
  face_embedding : Option (List Nat)
  fingerprint_hash : Option String
  is_enrolled : Bool
deriving DecidableEq

/-- `Session` model (models/session.py), restricted to the fields
`mark_attendance` reads. -/
structure Session where
  id : Nat
  is_active : Bool
deriving DecidableEq

/-- Attendance status enumeration (models/attendance.py). -/
inductive AttendanceStatus where
  | present
  | absent
  | late
  | excused
deriving DecidableEq

/-- `Attendance` model (models/attendance.py): one record per student per
session.  Timestamps are modelled as naturals. -/
structure Attendance where
  id : Nat
  student_id : Nat
  session_id : Nat
  status : AttendanceStatus
  face_confidence : Option ℚ
  id_card_confidence : Option ℚ
  fingerprint_match : Bool
  overall_confidence : ℚ
  verification_method : String
  device_info : Option String
  ip_address : Option String
  marked_at : Nat
deriving DecidableEq

/-- `AnomalyLog` model (models/anomaly.py). -/
structure AnomalyLog where
  id : Nat
  student_id : Option Nat
  session_id : Option Nat
  anomaly_type : String
  severity : String
  reason : String
  details : Option String
  is_resolved : Bool
  resolved_by : Option Nat
  resolution_notes : Option String
  resolved_at : Option Nat
  attempt_time : Nat
  ip_address : Option String
  device_info : Option String
deriving DecidableEq

/-- The durable store the services read and write: the four persisted
tables, each as a list of rows in insertion order. -/
structure DB where
  students : List Student
  sessions : List Session
  attendances : List Attendance
  anomalies : List AnomalyLog
deriving DecidableEq

/-- `AttendanceMarkRequest` schema (schemas/attendance.py). -/
structure AttendanceMarkRequest where
  session_id : Nat
  student_id : Nat
  face_image : Option String
  id_card_image : Option String
  fingerprint_token : Option String
  device_info : Option String
deriving DecidableEq

/-- `AttendanceService.get_student` (attendance.py lines 25-28):
`select ... where Student.id == student_id`, one row or none. -/
def get_student (db : DB) (student_id : Nat) : Option Student :=
  db.students.find? fun s => s.id == student_id

/-- `AttendanceService.get_session` (attendance.py lines 30-33). -/
def get_session (db : DB) (session_id : Nat) : Option Session :=
  db.sessions.find? fun s => s.id == session_id

/-- `AttendanceService.check_existing_attendance` (attendance.py
lines 35-47). -/
def check_existing_attendance (db : DB) (student_id session_id : Nat) :
    Option Attendance :=
  db.attendances.find? fun a =>
    a.student_id == student_id && a.session_id == session_id

/-- Number of attendance records stored for one (student, session) pair. -/
def pairCount (db : DB) (student_id session_id : Nat) : Nat :=
  (db.attendances.filter fun a =>
    a.student_id == student_id && a.session_id == session_id).length

/-- `AttendanceService._log_anomaly` (attendance.py lines 173-197):
appends one anomaly row with severity defaulted to "medium".  The
autoincremented primary key is modelled as the next list position. -/
def log_anomaly_row (db : DB) (student_id session_id : Nat) (anomaly_type reason : String)
    (ip_address device_info : Option String) (now : Nat) : AnomalyLog :=
  { id := db.anomalies.length + 1
    student_id := some student_id
    session_id := some session_id
    anomaly_type := anomaly_type
    severity := "medium"
    reason := reason
    details := none
    is_resolved := false
    resolved_by := none
    resolution_notes := none
    resolved_at := none
    attempt_time := now
    ip_address := ip_address
    device_info := device_info }

/-- `AttendanceService.mark_attendance` (attendance.py lines 49-171):
pre-checks in source order (student found, session found, session
active, not already marked, biometrics enrolled), then multi-factor
verification; a detected anomaly appends one anomaly row, and a
successful verification appends exactly one attendance row.  Returns the
updated store, the created record (or none) and the verification result. -/
def mark_attendance (min_face_confidence : ℚ) (cmp : Comparators) (db : DB)
    (request : AttendanceMarkRequest) (ip_address : Option String) (now : Nat) :
    DB × Option Attendance × VerificationResult :=
  match get_student db request.student_id with
  | none => (db, none, { success := false, message := "Student not found" })
  | some student =>
    match get_session db request.session_id with
    | none => (db, none, { success := false, message := "Session not found" })
    | some session =>
      if !session.is_active then
        (db, none,
          { success := false, message := "Session is not active for attendance marking" })
      else if (check_existing_attendance db request.student_id request.session_id).isSome then
        (db, none,
          { success := false, message := "Attendance already marked for this session" })
      else if !student.is_enrolled then
        (db, none,
          { success := false,
            message := "Student biometrics not enrolled. Please complete enrollment first." })
      else
        let vr := verify_student min_face_confidence cmp student.roll_no student.name
          student.face_embedding student.fingerprint_hash
          request.face_image request.id_card_image request.fingerprint_token
        let db1 :=
          if vr.anomaly_detected then
            { db with anomalies := db.anomalies
                ++ [log_anomaly_row db student.id session.id "verification_failed"
                      (vr.anomaly_reason.getD "Verification failed")
                      ip_address request.device_info now] }
          else db
        if vr.success then
          let attendance : Attendance :=
            { id := db1.attendances.length + 1
              student_id := student.id
              session_id := session.id
              status := AttendanceStatus.present
              face_confidence := if vr.face_verified then some vr.face_confidence else none
              id_card_confidence :=
                if vr.id_card_verified then some vr.id_card_confidence else none
              fingerprint_match := vr.fingerprint_verified
              overall_confidence := vr.overall_confidence
              verification_method := vr.verification_method
              device_info := request.device_info
              ip_address := ip_address
              marked_at := now }
          ({ db1 with attendances := db1.attendances ++ [attendance] }, some attendance, vr)
        else (db1, none, vr)

/-- `AnomalyService.resolve_anomaly` (anomaly.py lines 268-297): looks
the record up by primary key and, when found, sets the resolution fields
unconditionally (there is no already-resolved guard).  Primary-key
uniqueness makes the positional update the single looked-up row. -/
def resolve_anomaly (db : DB) (anomaly_id resolved_by : Nat)
    (resolution_notes : String) (now : Nat) : DB × Option AnomalyLog :=
  match db.anomalies.find? (fun a => a.id == anomaly_id) with
  | none => (db, none)
  | some a =>
    let updated : AnomalyLog :=
      { a with
        is_resolved := true
        resolved_by := some resolved_by
        resolution_notes := some resolution_notes
        resolved_at := some now }
    ({ db with anomalies := db.anomalies.map fun b =>
        if b.id == anomaly_id then
          { b with
            is_resolved := true
            resolved_by := some resolved_by
            resolution_notes := some resolution_notes
            resolved_at := some now }
        else b },
      some updated)

/-- The face-recognition collaborator (ml/face_recognition.py), abstract:
base64 decoding, embedding generation, embedding deserialization and the
face comparator. -/
structure FaceRecognition where
  decode_base64_image : String → Option (List Nat)
  generate_embedding : List Nat → Option (List ℚ)
  deserialize_embedding : List Nat → List ℚ
  compare_faces : List ℚ → List Nat → Bool × ℚ

/-- `FaceRecognitionService.find_matching_face` (face_recognition.py
lines 237-274): generates an embedding from the probe image (bailing out
when none is produced), then scans the stored embeddings keeping the
current best match, replacing it only when a comparator match has
strictly greater confidence than the best so far (which starts at 0). -/
def find_matching_face (fr : FaceRecognition) (face_image : List Nat)
    (embeddings : List (Nat × List Nat)) : Option (Nat × ℚ) :=
  match fr.generate_embedding face_image with
  | none => none
  | some _ =>
    let r := embeddings.foldl
      (fun best p =>
        let stored := fr.deserialize_embedding p.2
        let c := fr.compare_faces stored face_image
        if c.1 && best.2 < c.2 then (some p.1, c.2) else best)
      ((none : Option Nat), (0 : ℚ))
    match r.1 with
    | some sid => some (sid, r.2)
    | none => none

/-- The candidate scan of `AnomalyService.check_duplicate_face`
(anomaly.py lines 137-147): all students of the same college with a
stored face embedding, excluding the claiming student. -/
def duplicate_face_candidates (db : DB) (claiming_student_id : Nat)
    (college_id : String) : List Student :=
  db.students.filter fun s =>
    s.college_id == college_id && s.face_embedding.isSome
      && s.id != claiming_student_id

/-- `AnomalyService.check_duplicate_face` (anomaly.py lines 117-169):
returns the matched student id when the scan finds a match — the
comparator confidence is logged but not returned. -/
def check_duplicate_face (fr : FaceRecognition) (db : DB)
    (face_image_base64 : String) (claiming_student_id : Nat)
    (college_id : String) : Option Nat :=
  let students := duplicate_face_candidates db claiming_student_id college_id
  if students.isEmpty then none
  else
    match fr.decode_base64_image face_image_base64 with
    | none => none
    | some face_image =>
      let embeddings := students.map fun s => (s.id, s.face_embedding.getD [])
      match find_matching_face fr face_image embeddings with
      | some m => some m.1
      | none => none

/-- Spec-side reference selection for the duplicate-face scan: the first
stored embedding whose comparator result is a match with confidence
strictly above the threshold `c0`, upgraded to any strictly better match
further down the list — i.e. the first-encountered match of maximal
confidence among those above `c0`. -/
def bestMatchAbove (fr : FaceRecognition) (face_image : List Nat) :
    ℚ → List (Nat × List Nat) → Option (Nat × ℚ)
  | _, [] => none
  | c0, p :: rest =>
    let c := fr.compare_faces (fr.deserialize_embedding p.2) face_image
    if c.1 && c0 < c.2 then
      match bestMatchAbove fr face_image c.2 rest with
      | none => some (p.1, c.2)
      | some r => some r
    else bestMatchAbove fr face_image c0 rest

/-- A comparator bundle whose comparators all reject, for concrete
evaluations. -/
def cmpReject : Comparators :=
  { compare_faces_from_base64 := fun _ _ => (false, 0)
    validate_id_card := fun _ _ _ => (false, 0, [])
    fingerprint_compare := fun _ _ => (false, 0) }

/-- A comparator bundle whose comparators all accept with fixed
confidences, for concrete evaluations. -/
def cmpAccept : Comparators :=
  { compare_faces_from_base64 := fun _ _ => (true, 0.92)
    validate_id_card := fun _ _ _ => (true, 0.9, [])
    fingerprint_compare := fun _ _ => (true, 0.95) }

/-- A fully enrolled student, for concrete evaluations. -/
def student1 : Student :=
  { id := 1
    roll_no := "R001"
    name := "Asha"
    college_id := "C1"
    face_embedding := some [1, 2]
    fingerprint_hash := some "fh"
    is_enrolled := true }

/-- A session closed for marking. -/
def sessionInactive : Session := { id := 2, is_active := false }

/-- A session open for marking. -/
def sessionActive : Session := { id := 2, is_active := true }

/-- An attendance record already stored for (student 1, session 2). -/
def att1 : Attendance :=
  { id := 1
    student_id := 1
    session_id := 2
    status := AttendanceStatus.present
    face_confidence := none
    id_card_confidence := none
    fingerprint_match := false
    overall_confidence := 0
    verification_method := "face"
    device_info := none
    ip_address := none
    marked_at := 0 }

/-- Store where (student 1, session 2) is already marked and the session
has since been closed for marking. -/
def dbMarkedInactive : DB :=
  { students := [student1]
    sessions := [sessionInactive]
    attendances := [att1]
    anomalies := [] }

/-- Store where (student 1, session 2) is already marked and the session
is still open for marking. -/
def dbMarkedActive : DB :=
  { students := [student1]
    sessions := [sessionActive]
    attendances := [att1]
    anomalies := [] }

/-- A mark request for (student 1, session 2) carrying a face image. -/
def req1 : AttendanceMarkRequest :=
  { session_id := 2
    student_id := 1
    face_image := some "img"
    id_card_image := none
    fingerprint_token := none
    device_info := none }

/-- An anomaly record that has already been resolved (by user 7). -/
def resolvedLog : AnomalyLog :=
  { id := 1
    student_id := some 1
    session_id := some 2
    anomaly_type := "verification_failed"
    severity := "medium"
    reason := "verification failed"
    details := none
    is_resolved := true
    resolved_by := some 7
    resolution_notes := some "first"
    resolved_at := some 5
    attempt_time := 1
    ip_address := none
    device_info := none }

/-- Store holding only the already-resolved anomaly record. -/
def dbResolved : DB :=
  { students := []
    sessions := []
    attendances := []
    anomalies := [resolvedLog] }

/-- Face-recognition collaborator whose comparator always reports a match
with confidence 0, for concrete evaluations. -/
def frZero : FaceRecognition :=
  { decode_base64_image := fun _ => some [0]
    generate_embedding := fun _ => some []
    deserialize_embedding := fun _ => []
    compare_faces := fun _ _ => (true, 0) }

/-- Face-recognition collaborator whose comparator always reports a match
with confidence 0.9, for concrete evaluations. -/
def frMatch : FaceRecognition :=
  { decode_base64_image := fun _ => some [0]
    generate_embedding := fun _ => some []
    deserialize_embedding := fun _ => []
    compare_faces := fun _ _ => (true, 0.9) }

/-- A second student of the same college with a stored face template. -/
def student3 : Student :=
  { id := 3
    roll_no := "R003"
    name := "Bina"
    college_id := "C1"
    face_embedding := some [5]
    fingerprint_hash := none
    is_enrolled := true }

/-- Store holding one enrolled face template of another student. -/
def dbDup : DB :=
  { students := [student3]
    sessions := []
    attendances := []
    anomalies := [] }

/-! Theorems. -/

/-- Helper: the aggregation phase decides success exactly by the tiered
policy over the gathered factor results. -/
theorem verify_student_aggregate_success (mfc : ℚ) (f i : Option (Bool × ℚ))
    (fp : Option Bool) :
    (verify_student_aggregate mfc f i fp).success = tieredSuccessPolicy mfc f i fp := by
  rcases f with _ | ⟨v1, c1⟩ <;> rcases i with _ | ⟨v2, c2⟩ <;> rcases fp with _ | v3 <;>
    simp [verify_student_aggregate, tieredSuccessPolicy, verification_methods,
      List.filter, List.contains] <;>
    (try cases v1) <;> (try cases v2) <;> (try cases v3) <;> simp

/-- C1: the success flag of `verify_student` equals the tiered reference
policy over the applicable factors: 0 applicable factors never succeed;
a single applicable factor succeeds iff its comparator reported
verified=true and, for face, its confidence is at least the configured
minimum face-match confidence; two applicable factors succeed iff both
reported verified=true; three applicable factors succeed iff all three
reported verified=true. -/
theorem verify_student_success_tiered (mfc : ℚ) (cmp : Comparators)
    (roll nm : String) (sfe : Option (List Nat)) (sfh fi ii ft : Option String) :
    (verify_student mfc cmp roll nm sfe sfh fi ii ft).success
      = tieredSuccessPolicy mfc
          (verify_student_factors cmp roll nm sfe sfh fi ii ft).1
          (verify_student_factors cmp roll nm sfe sfh fi ii ft).2.1
          (verify_student_factors cmp roll nm sfe sfh fi ii ft).2.2 := by
  unfold verify_student
  exact verify_student_aggregate_success mfc _ _ _

/-- C2: the overall confidence is the fixed weighted sum
0.50·face + 0.30·id + 0.20·(0.95 if fingerprint matched else 0), never
renormalized, and lies in [0, 1] whenever the factor confidences do. -/
theorem calculate_overall_confidence_weighted_sum (fc ic : ℚ) (fp : Bool)
    (hfc0 : 0 ≤ fc) (hfc1 : fc ≤ 1) (hic0 : 0 ≤ ic) (hic1 : ic ≤ 1) :
    calculate_overall_confidence fc ic fp
        = fc * (0.5 : ℚ) + ic * (0.3 : ℚ) + (if fp then (0.95 : ℚ) else 0) * (0.2 : ℚ)
      ∧ 0 ≤ calculate_overall_confidence fc ic fp
      ∧ calculate_overall_confidence fc ic fp ≤ 1 := by
  have hle : fc * (0.5 : ℚ) + ic * (0.3 : ℚ) + (if fp then (0.95 : ℚ) else 0) * (0.2 : ℚ) ≤ 1 := by
    rcases fp <;> simp only [if_true, if_false, Bool.false_eq_true] <;> nlinarith
  have h0 : 0 ≤ fc * (0.5 : ℚ) + ic * (0.3 : ℚ) + (if fp then (0.95 : ℚ) else 0) * (0.2 : ℚ) := by
    rcases fp <;> simp only [if_true, if_false, Bool.false_eq_true] <;> nlinarith
  have key : calculate_overall_confidence fc ic fp
      = fc * (0.5 : ℚ) + ic * (0.3 : ℚ) + (if fp then (0.95 : ℚ) else 0) * (0.2 : ℚ) := by
    simp only [calculate_overall_confidence, face_weight, id_weight, fingerprint_weight]
    exact min_eq_left hle
  exact ⟨key, key ▸ h0, key ▸ hle⟩

/-- Witness for C2 at face confidence 1, id confidence 1, fingerprint
matched. -/
theorem calculate_overall_confidence_weighted_sum_witness :
    calculate_overall_confidence 1 1 true
        = 1 * (0.5 : ℚ) + 1 * (0.3 : ℚ) + (if true then (0.95 : ℚ) else 0) * (0.2 : ℚ)
      ∧ 0 ≤ calculate_overall_confidence 1 1 true
      ∧ calculate_overall_confidence 1 1 true ≤ 1 :=
  calculate_overall_confidence_weighted_sum 1 1 true (by norm_num) (by norm_num)
    (by norm_num) (by norm_num)

/-- C10: for factor confidences in [0, 1] the overall confidence is at
most 0.99 and never reaches 1; the unclamped weighted sum stays strictly
below 1, so the clamp never triggers, and even all-perfect factors give
exactly 0.99. -/
theorem overall_confidence_never_reaches_one (fc ic : ℚ) (fp : Bool)
    (hfc0 : 0 ≤ fc) (hfc1 : fc ≤ 1) (hic0 : 0 ≤ ic) (hic1 : ic ≤ 1) :
    calculate_overall_confidence fc ic fp ≤ (0.99 : ℚ)
      ∧ calculate_overall_confidence fc ic fp < 1
      ∧ fc * (0.5 : ℚ) + ic * (0.3 : ℚ) + (if fp then (0.95 : ℚ) else 0) * (0.2 : ℚ) < 1
      ∧ calculate_overall_confidence 1 1 true = (0.99 : ℚ) := by
  have hsum : fc * (0.5 : ℚ) + ic * (0.3 : ℚ) + (if fp then (0.95 : ℚ) else 0) * (0.2 : ℚ)
      ≤ (0.99 : ℚ) := by
    rcases fp <;> simp only [if_true, if_false, Bool.false_eq_true] <;> nlinarith
  have hlt : fc * (0.5 : ℚ) + ic * (0.3 : ℚ) + (if fp then (0.95 : ℚ) else 0) * (0.2 : ℚ)
      < 1 := lt_of_le_of_lt hsum (by norm_num)
  have key : calculate_overall_confidence fc ic fp
      = fc * (0.5 : ℚ) + ic * (0.3 : ℚ) + (if fp then (0.95 : ℚ) else 0) * (0.2 : ℚ) := by
    simp only [calculate_overall_confidence, face_weight, id_weight, fingerprint_weight]
    exact min_eq_left (le_of_lt hlt)
  refine ⟨key ▸ hsum, key ▸ hlt, hlt, ?_⟩
  norm_num [calculate_overall_confidence, face_weight, id_weight, fingerprint_weight]

/-- Witness for C10 at face confidence 1, id confidence 1, fingerprint
matched. -/
theorem overall_confidence_never_reaches_one_witness :
    calculate_overall_confidence 1 1 true ≤ (0.99 : ℚ)
      ∧ calculate_overall_confidence 1 1 true < 1
      ∧ 1 * (0.5 : ℚ) + 1 * (0.3 : ℚ) + (if true then (0.95 : ℚ) else 0) * (0.2 : ℚ) < 1
      ∧ calculate_overall_confidence 1 1 true = (0.99 : ℚ) :=
  overall_confidence_never_reaches_one 1 1 true (by norm_num) (by norm_num)
    (by norm_num) (by norm_num)

/-- Helper: membership of each modality name in the methods list matches
the corresponding factor result being present. -/
theorem verification_methods_contains (f i : Option (Bool × ℚ)) (fp : Option Bool) :
    ((verification_methods f i fp).contains "face" = f.isSome)
      ∧ ((verification_methods f i fp).contains "id_card" = i.isSome)
      ∧ ((verification_methods f i fp).contains "fingerprint" = fp.isSome) := by
  rcases f <;> rcases i <;> rcases fp <;>
    refine ⟨?_, ?_, ?_⟩ <;> simp [verification_methods]

/-- Helper: every branch of the aggregation carries the method descriptor
built from the applicable-factor list ("+"-joined names, "none" when
empty). -/
theorem verify_student_aggregate_method (mfc : ℚ) (f i : Option (Bool × ℚ))
    (fp : Option Bool) :
    (verify_student_aggregate mfc f i fp).verification_method
      = (if (verification_methods f i fp).isEmpty then "none"
         else String.intercalate "+" (verification_methods f i fp)) := by
  rcases f with _ | ⟨v1, c1⟩ <;> rcases i with _ | ⟨v2, c2⟩ <;> rcases fp with _ | v3 <;>
    simp [verify_student_aggregate, verification_methods]

/-- C3: a factor is evaluated (its result gathered, and its name listed
in the method descriptor) iff the caller supplied truthy raw input for
it and the enrolled template for that modality exists: face needs a face
image and a stored embedding, fingerprint needs a token and a stored
hash, and the id-card factor needs only its image because its reference
data (the student's roll number and name) are non-nullable columns that
always exist. -/
theorem verify_student_applicable_factors (mfc : ℚ) (cmp : Comparators)
    (roll nm : String) (sfe : Option (List Nat)) (sfh fi ii ft : Option String) :
    ((verify_student_factors cmp roll nm sfe sfh fi ii ft).1.isSome
        = (strTruthy fi && bytesTruthy sfe))
      ∧ ((verify_student_factors cmp roll nm sfe sfh fi ii ft).2.1.isSome
        = strTruthy ii)
      ∧ ((verify_student_factors cmp roll nm sfe sfh fi ii ft).2.2.isSome
        = (strTruthy ft && strTruthy sfh))
      ∧ ((verification_methods
            (verify_student_factors cmp roll nm sfe sfh fi ii ft).1
            (verify_student_factors cmp roll nm sfe sfh fi ii ft).2.1
            (verify_student_factors cmp roll nm sfe sfh fi ii ft).2.2).contains "face"
        = (verify_student_factors cmp roll nm sfe sfh fi ii ft).1.isSome)
      ∧ ((verification_methods
            (verify_student_factors cmp roll nm sfe sfh fi ii ft).1
            (verify_student_factors cmp roll nm sfe sfh fi ii ft).2.1
            (verify_student_factors cmp roll nm sfe sfh fi ii ft).2.2).contains "id_card"
        = (verify_student_factors cmp roll nm sfe sfh fi ii ft).2.1.isSome)
      ∧ ((verification_methods
            (verify_student_factors cmp roll nm sfe sfh fi ii ft).1
            (verify_student_factors cmp roll nm sfe sfh fi ii ft).2.1
            (verify_student_factors cmp roll nm sfe sfh fi ii ft).2.2).contains "fingerprint"
        = (verify_student_factors cmp roll nm sfe sfh fi ii ft).2.2.isSome)
      ∧ ((verify_student mfc cmp roll nm sfe sfh fi ii ft).verification_method
        = (if (verification_methods
              (verify_student_factors cmp roll nm sfe sfh fi ii ft).1
              (verify_student_factors cmp roll nm sfe sfh fi ii ft).2.1
              (verify_student_factors cmp roll nm sfe sfh fi ii ft).2.2).isEmpty
           then "none"
           else String.intercalate "+"
             (verification_methods
               (verify_student_factors cmp roll nm sfe sfh fi ii ft).1
               (verify_student_factors cmp roll nm sfe sfh fi ii ft).2.1
               (verify_student_factors cmp roll nm sfe sfh fi ii ft).2.2))) := by
  refine ⟨?_, ?_, ?_,
    (verification_methods_contains _ _ _).1,
    (verification_methods_contains _ _ _).2.1,
    (verification_methods_contains _ _ _).2.2,
    verify_student_aggregate_method mfc _ _ _⟩
  · rcases fi with _ | img <;> rcases sfe with _ | emb <;>
      simp [verify_student_factors, strTruthy, bytesTruthy] <;>
      split_ifs <;> simp_all
  · rcases ii with _ | img <;>
      simp [verify_student_factors, strTruthy] <;>
      split_ifs <;> simp_all
  · rcases ft with _ | tok <;> rcases sfh with _ | h <;>
      simp [verify_student_factors, strTruthy] <;>
      split_ifs <;> simp_all

/-- Helper: the aggregation phase raises the anomaly flag exactly on
failure and populates the anomaly reason exactly then. -/
theorem verify_student_aggregate_anomaly (mfc : ℚ) (f i : Option (Bool × ℚ))
    (fp : Option Bool) :
    (verify_student_aggregate mfc f i fp).anomaly_detected
        = !(verify_student_aggregate mfc f i fp).success
      ∧ (verify_student_aggregate mfc f i fp).anomaly_reason.isSome
        = !(verify_student_aggregate mfc f i fp).success := by
  rcases f with _ | ⟨v1, c1⟩ <;> rcases i with _ | ⟨v2, c2⟩ <;> rcases fp with _ | v3 <;>
    (try cases v1) <;> (try cases v2) <;> (try cases v3) <;>
    refine ⟨?_, ?_⟩ <;>
    simp [verify_student_aggregate, verification_methods] <;>
    split_ifs <;> simp_all

/-- Helper: `mark_attendance` appends exactly one anomaly row when the
verification result it returns has the anomaly flag set, and none
otherwise (the pre-check rejections return results without the flag). -/
theorem mark_attendance_anomaly_persistence (mfc : ℚ) (cmp : Comparators) (db : DB)
    (req : AttendanceMarkRequest) (ip : Option String) (now : Nat) :
    ((mark_attendance mfc cmp db req ip now).1.anomalies).length
      = db.anomalies.length
        + (if (mark_attendance mfc cmp db req ip now).2.2.anomaly_detected then 1 else 0) := by
  unfold mark_attendance
  rcases get_student db req.student_id with _ | student
  · simp
  rcases get_session db req.session_id with _ | session
  · simp
  cases hact : session.is_active
  · simp [hact]
  cases hex : (check_existing_attendance db req.student_id req.session_id).isSome
  case false =>
    cases hen : student.is_enrolled
    case false => simp [hact, hex, hen]
    case true =>
      cases hvd : (verify_student mfc cmp student.roll_no student.name
          student.face_embedding student.fingerprint_hash
          req.face_image req.id_card_image req.fingerprint_token).anomaly_detected <;>
        cases hvs : (verify_student mfc cmp student.roll_no student.name
            student.face_embedding student.fingerprint_hash
            req.face_image req.id_card_image req.fingerprint_token).success <;>
          simp [hact, hex, hen, hvd, hvs]
  case true => simp [hact, hex]

/-- C5: a verification failure is data, not an exception: `verify_student`
raises the anomaly flag exactly when success is false and populates the
anomaly reason exactly then (success never sets either); and
`mark_attendance` persists exactly one anomaly row whenever the
verification result it returns carries the anomaly flag, and none
otherwise. -/
theorem verification_failure_is_data :
    (∀ (mfc : ℚ) (cmp : Comparators) (roll nm : String) (sfe : Option (List Nat))
        (sfh fi ii ft : Option String),
        ((verify_student mfc cmp roll nm sfe sfh fi ii ft).anomaly_detected
            = !(verify_student mfc cmp roll nm sfe sfh fi ii ft).success)
          ∧ ((verify_student mfc cmp roll nm sfe sfh fi ii ft).anomaly_reason.isSome
            = !(verify_student mfc cmp roll nm sfe sfh fi ii ft).success))
      ∧ (∀ (mfc : ℚ) (cmp : Comparators) (db : DB) (req : AttendanceMarkRequest)
          (ip : Option String) (now : Nat),
          ((mark_attendance mfc cmp db req ip now).1.anomalies).length
            = db.anomalies.length
              + (if (mark_attendance mfc cmp db req ip now).2.2.anomaly_detected
                 then 1 else 0)) := by
  constructor
  · intro mfc cmp roll nm sfe sfh fi ii ft
    unfold verify_student
    exact verify_student_aggregate_anomaly mfc _ _ _
  · intro mfc cmp db req ip now
    exact mark_attendance_anomaly_persistence mfc cmp db req ip now

/-- C7: a mark attempt that hits a hard error (session not open for
marking, attendance record already present, or student not biometrically
enrolled) is rejected with nothing persisted: the store is returned
unchanged (in particular no attendance record and no anomaly row is
created), no record is returned, the result is a failure, and no
comparator work runs — the outcome is independent of the comparator
bundle. -/
theorem mark_attendance_hard_error_no_persistence (mfc : ℚ) (cmp cmp2 : Comparators)
    (db : DB) (req : AttendanceMarkRequest) (ip : Option String) (now : Nat)
    (h : (∃ s, get_session db req.session_id = some s ∧ s.is_active = false)
        ∨ (check_existing_attendance db req.student_id req.session_id).isSome = true
        ∨ (∃ st, get_student db req.student_id = some st ∧ st.is_enrolled = false)) :
    (mark_attendance mfc cmp db req ip now).1 = db
      ∧ (mark_attendance mfc cmp db req ip now).2.1 = none
      ∧ (mark_attendance mfc cmp db req ip now).2.2.success = false
      ∧ mark_attendance mfc cmp db req ip now = mark_attendance mfc cmp2 db req ip now := by
  cases hstu : get_student db req.student_id with
  | none => simp [mark_attendance, hstu]
  | some student =>
    cases hses : get_session db req.session_id with
    | none => simp [mark_attendance, hstu, hses]
    | some session =>
      cases hact : session.is_active with
      | false => simp [mark_attendance, hstu, hses, hact]
      | true =>
        cases hex : (check_existing_attendance db req.student_id req.session_id).isSome with
        | true => simp [mark_attendance, hstu, hses, hact, hex]
        | false =>
          cases hen : student.is_enrolled with
          | false => simp [mark_attendance, hstu, hses, hact, hex, hen]
          | true =>
            exfalso
            rcases h with ⟨s, hs, hf⟩ | hx | ⟨st, hst, hf⟩ <;> simp_all

/-- Witness for C7: a store whose session is closed for marking. -/
theorem mark_attendance_hard_error_no_persistence_witness :
    (mark_attendance (0.8 : ℚ) cmpReject dbMarkedInactive req1 none 0).1 = dbMarkedInactive
      ∧ (mark_attendance (0.8 : ℚ) cmpReject dbMarkedInactive req1 none 0).2.1 = none
      ∧ (mark_attendance (0.8 : ℚ) cmpReject dbMarkedInactive req1 none 0).2.2.success = false
      ∧ mark_attendance (0.8 : ℚ) cmpReject dbMarkedInactive req1 none 0
          = mark_attendance (0.8 : ℚ) cmpAccept dbMarkedInactive req1 none 0 :=
  mark_attendance_hard_error_no_persistence (0.8 : ℚ) cmpReject cmpAccept
    dbMarkedInactive req1 none 0 (Or.inl ⟨sessionInactive, by decide, by decide⟩)

/-- Helper: when no attendance record exists for a pair, the pair's
record count is zero. -/
theorem pairCount_eq_zero_of_no_existing (db : DB) (sid ssid : Nat)
    (h : check_existing_attendance db sid ssid = none) : pairCount db sid ssid = 0 := by
  unfold check_existing_attendance at h
  unfold pairCount
  rw [List.length_eq_zero, List.filter_eq_nil_iff]
  exact List.find?_eq_none.mp h

/-- Counterexample to C4 as stated: with an attendance record already
present for (student 1, session 2) but the session since closed for
marking, a second mark attempt is rejected with the session-inactive
message, not the already-marked error the claim promises for every
subsequent attempt. -/
theorem mark_attendance_second_attempt_message_counterexample :
    (check_existing_attendance dbMarkedInactive req1.student_id req1.session_id).isSome = true
      ∧ (mark_attendance (0.8 : ℚ) cmpAccept dbMarkedInactive req1 none 0).2.2.message
          = "Session is not active for attendance marking"
      ∧ (mark_attendance (0.8 : ℚ) cmpAccept dbMarkedInactive req1 none 0).2.2.message
          ≠ "Attendance already marked for this session" := by
  have hmsg : (mark_attendance (0.8 : ℚ) cmpAccept dbMarkedInactive req1 none 0).2.2.message
      = "Session is not active for attendance marking" := rfl
  exact ⟨by decide, hmsg, by rw [hmsg]; decide⟩

/-- Helper: appending one element adds its filter contribution to the
length. -/
theorem length_filter_append_single {α : Type} (l : List α) (x : α) (p : α → Bool) :
    ((l ++ [x]).filter p).length
      = (l.filter p).length + (if p x then 1 else 0) := by
  by_cases hm : p x = true <;> simp [List.filter_append, List.filter_cons, hm]

/-- Helper: when `mark_attendance` returns a record, the attendance table
is exactly the old one plus that record, the record carries the requested
pair, and no record for that pair existed before. -/
theorem mark_attendance_record_shape (mfc : ℚ) (cmp : Comparators) (db : DB)
    (req : AttendanceMarkRequest) (ip : Option String) (now : Nat) :
    ∀ rec, (mark_attendance mfc cmp db req ip now).2.1 = some rec →
      (mark_attendance mfc cmp db req ip now).1.attendances = db.attendances ++ [rec]
        ∧ rec.student_id = req.student_id ∧ rec.session_id = req.session_id
        ∧ check_existing_attendance db req.student_id req.session_id = none := by
  intro rec hrec
  cases hstu : get_student db req.student_id with
  | none => simp [mark_attendance, hstu] at hrec
  | some student =>
    cases hses : get_session db req.session_id with
    | none => simp [mark_attendance, hstu, hses] at hrec
    | some session =>
      cases hact : session.is_active with
      | false => simp [mark_attendance, hstu, hses, hact] at hrec
      | true =>
        cases hex : check_existing_attendance db req.student_id req.session_id with
        | some a => simp [mark_attendance, hstu, hses, hact, hex] at hrec
        | none =>
          cases hen : student.is_enrolled with
          | false => simp [mark_attendance, hstu, hses, hact, hex, hen] at hrec
          | true =>
            have hstu' : db.students.find? (fun s => s.id == req.student_id)
                = some student := hstu
            have hsid : student.id = req.student_id := by
              simpa using List.find?_some hstu'
            have hses' : db.sessions.find? (fun s => s.id == req.session_id)
                = some session := hses
            have hssid : session.id = req.session_id := by
              simpa using List.find?_some hses'
            cases hvs : (verify_student mfc cmp student.roll_no student.name
                student.face_embedding student.fingerprint_hash
                req.face_image req.id_card_image req.fingerprint_token).success with
            | false =>
              cases hvd : (verify_student mfc cmp student.roll_no student.name
                  student.face_embedding student.fingerprint_hash
                  req.face_image req.id_card_image req.fingerprint_token).anomaly_detected <;>
                simp [mark_attendance, hstu, hses, hact, hex, hen, hvs, hvd] at hrec
            | true =>
              cases hvd : (verify_student mfc cmp student.roll_no student.name
                  student.face_embedding student.fingerprint_hash
                  req.face_image req.id_card_image req.fingerprint_token).anomaly_detected <;>
              · simp [mark_attendance, hstu, hses, hact, hex, hen, hvs, hvd] at hrec
                subst hrec
                simp [mark_attendance, hstu, hses, hact, hex, hen, hvs, hvd, hsid, hssid]

/-- Helper: when `mark_attendance` returns no record, the attendance
table is unchanged. -/
theorem mark_attendance_none_shape (mfc : ℚ) (cmp : Comparators) (db : DB)
    (req : AttendanceMarkRequest) (ip : Option String) (now : Nat) :
    (mark_attendance mfc cmp db req ip now).2.1 = none →
      (mark_attendance mfc cmp db req ip now).1.attendances = db.attendances := by
  intro hnone
  cases hstu : get_student db req.student_id with
  | none => simp [mark_attendance, hstu]
  | some student =>
    cases hses : get_session db req.session_id with
    | none => simp [mark_attendance, hstu, hses]
    | some session =>
      cases hact : session.is_active with
      | false => simp [mark_attendance, hstu, hses, hact]
      | true =>
        cases hex : check_existing_attendance db req.student_id req.session_id with
        | some a => simp [mark_attendance, hstu, hses, hact, hex]
        | none =>
          cases hen : student.is_enrolled with
          | false => simp [mark_attendance, hstu, hses, hact, hex, hen]
          | true =>
            cases hvs : (verify_student mfc cmp student.roll_no student.name
                student.face_embedding student.fingerprint_hash
                req.face_image req.id_card_image req.fingerprint_token).success with
            | false =>
              cases hvd : (verify_student mfc cmp student.roll_no student.name
                  student.face_embedding student.fingerprint_hash
                  req.face_image req.id_card_image req.fingerprint_token).anomaly_detected <;>
                simp [mark_attendance, hstu, hses, hact, hex, hen, hvs, hvd]
            | true =>
              cases hvd : (verify_student mfc cmp student.roll_no student.name
                  student.face_embedding student.fingerprint_hash
                  req.face_image req.id_card_image req.fingerprint_token).anomaly_detected <;>
                simp [mark_attendance, hstu, hses, hact, hex, hen, hvs, hvd] at hnone

/-- C4 (amended): a successful mark appends exactly one attendance
record, for the requested pair, and only when no record for that pair
existed; when a record already exists any further attempt leaves the
store unchanged, creates nothing, and is rejected with the already-marked
error provided the student/session-existence and session-activity
pre-checks pass (an inactive session is reported first); hence
`mark_attendance` preserves "at most one record per (student, session)
pair". -/
theorem mark_attendance_at_most_one_record (mfc : ℚ) (cmp : Comparators) (db : DB)
    (req : AttendanceMarkRequest) (ip : Option String) (now : Nat) :
    ((check_existing_attendance db req.student_id req.session_id).isSome = true →
        (mark_attendance mfc cmp db req ip now).1 = db
          ∧ (mark_attendance mfc cmp db req ip now).2.1 = none
          ∧ (∀ session, get_student db req.student_id ≠ none →
              get_session db req.session_id = some session → session.is_active = true →
              (mark_attendance mfc cmp db req ip now).2.2.message
                = "Attendance already marked for this session"))
      ∧ (∀ rec, (mark_attendance mfc cmp db req ip now).2.1 = some rec →
          (mark_attendance mfc cmp db req ip now).1.attendances = db.attendances ++ [rec]
            ∧ rec.student_id = req.student_id ∧ rec.session_id = req.session_id
            ∧ check_existing_attendance db req.student_id req.session_id = none)
      ∧ (∀ sid ssid, pairCount db sid ssid ≤ 1 →
          pairCount (mark_attendance mfc cmp db req ip now).1 sid ssid ≤ 1) := by
  refine ⟨?_, mark_attendance_record_shape mfc cmp db req ip now, ?_⟩
  · intro hex
    cases hstu : get_student db req.student_id with
    | none =>
      refine ⟨by simp [mark_attendance, hstu], by simp [mark_attendance, hstu], ?_⟩
      intro session hne _ _
      exact absurd rfl hne
    | some student =>
      cases hses : get_session db req.session_id with
      | none =>
        refine ⟨by simp [mark_attendance, hstu, hses],
          by simp [mark_attendance, hstu, hses], ?_⟩
        intro session _ hses2 _
        cases hses2
      | some session =>
        cases hact : session.is_active with
        | false =>
          refine ⟨by simp [mark_attendance, hstu, hses, hact],
            by simp [mark_attendance, hstu, hses, hact], ?_⟩
          intro s2 _ hses2 hact2
          injection hses2 with h2
          subst h2
          rw [hact] at hact2
          cases hact2
        | true =>
          refine ⟨by simp [mark_attendance, hstu, hses, hact, hex],
            by simp [mark_attendance, hstu, hses, hact, hex], ?_⟩
          intro s2 _ _ _
          simp [mark_attendance, hstu, hses, hact, hex]
  · intro sid ssid hle
    cases hopt : (mark_attendance mfc cmp db req ip now).2.1 with
    | none =>
      have hatt := mark_attendance_none_shape mfc cmp db req ip now hopt
      simpa [pairCount, hatt] using hle
    | some rec =>
      obtain ⟨hatt, hsid, hssid, hex⟩ :=
        mark_attendance_record_shape mfc cmp db req ip now rec hopt
      have hzero : pairCount db req.student_id req.session_id = 0 :=
        pairCount_eq_zero_of_no_existing db _ _ hex
      by_cases hm : ((fun a : Attendance =>
          a.student_id == sid && a.session_id == ssid) rec) = true
      · have hpair : sid = req.student_id ∧ ssid = req.session_id := by
          have hm' := hm
          simp only [Bool.and_eq_true, beq_iff_eq] at hm'
          exact ⟨hsid ▸ hm'.1.symm, hssid ▸ hm'.2.symm⟩
        obtain ⟨h1, h2⟩ := hpair
        subst h1
        subst h2
        have : pairCount (mark_attendance mfc cmp db req ip now).1
            req.student_id req.session_id
            = pairCount db req.student_id req.session_id + 1 := by
          simp [pairCount, hatt, length_filter_append_single, hm]
        omega
      · have : pairCount (mark_attendance mfc cmp db req ip now).1 sid ssid
            = pairCount db sid ssid := by
          simp [pairCount, hatt, length_filter_append_single, hm]
        omega

/-- Witness for C4 at a store where (student 1, session 2) is already
marked and the session is still open. -/
theorem mark_attendance_at_most_one_record_witness :
    ((mark_attendance (0.8 : ℚ) cmpAccept dbMarkedActive req1 none 0).1 = dbMarkedActive
        ∧ (mark_attendance (0.8 : ℚ) cmpAccept dbMarkedActive req1 none 0).2.1 = none
        ∧ (mark_attendance (0.8 : ℚ) cmpAccept dbMarkedActive req1 none 0).2.2.message
            = "Attendance already marked for this session")
      ∧ pairCount (mark_attendance (0.8 : ℚ) cmpAccept dbMarkedActive req1 none 0).1 1 2
          ≤ 1 := by
  have h := mark_attendance_at_most_one_record (0.8 : ℚ) cmpAccept dbMarkedActive req1 none 0
  have h1 := h.1 (by decide)
  exact ⟨⟨h1.1, h1.2.1, h1.2.2 sessionActive (by decide) (by decide) (by decide)⟩,
    h.2.2 1 2 (by decide)⟩

/-- Counterexample to C8 as stated: with a record already present for
(student 1, session 2) and the session closed for marking, the rejection
is the session-inactive message, so the existing-record check is not
applied before the session-activity check. -/
theorem session_inactive_beats_already_marked_counterexample :
    (check_existing_attendance dbMarkedInactive 1 2).isSome = true
      ∧ sessionInactive.is_active = false
      ∧ (mark_attendance (0.8 : ℚ) cmpReject dbMarkedInactive req1 none 0).2.2.message
          = "Session is not active for attendance marking"
      ∧ (mark_attendance (0.8 : ℚ) cmpReject dbMarkedInactive req1 none 0).2.2.message
          ≠ "Attendance already marked for this session" := by
  have hmsg : (mark_attendance (0.8 : ℚ) cmpReject dbMarkedInactive req1 none 0).2.2.message
      = "Session is not active for attendance marking" := rfl
  exact ⟨by decide, rfl, hmsg, by rw [hmsg]; decide⟩

/-- C8 (amended): the session-activity check is applied before the
existing-record check: when the claimed student is found, an inactive
session is reported even if a record already exists, and the
already-marked rejection is returned exactly when the session is found
active and a record for the pair exists. -/
theorem mark_attendance_check_order (mfc : ℚ) (cmp : Comparators) (db : DB)
    (req : AttendanceMarkRequest) (ip : Option String) (now : Nat) (student : Student)
    (hstu : get_student db req.student_id = some student) :
    (∀ session, get_session db req.session_id = some session →
        session.is_active = false →
        (mark_attendance mfc cmp db req ip now).2.2.message
          = "Session is not active for attendance marking")
      ∧ (∀ session, get_session db req.session_id = some session →
          session.is_active = true →
          (check_existing_attendance db req.student_id req.session_id).isSome = true →
          (mark_attendance mfc cmp db req ip now).2.2.message
            = "Attendance already marked for this session") := by
  constructor
  · intro session hses hf
    simp [mark_attendance, hstu, hses, hf]
  · intro session hses ht hex
    simp [mark_attendance, hstu, hses, ht, hex]

/-- Witness for C8 (amended) at the marked-and-inactive store. -/
theorem mark_attendance_check_order_witness :
    (mark_attendance (0.8 : ℚ) cmpReject dbMarkedInactive req1 none 0).2.2.message
      = "Session is not active for attendance marking" :=
  (mark_attendance_check_order (0.8 : ℚ) cmpReject dbMarkedInactive req1 none 0 student1
      (by decide)).1 sessionInactive (by decide) (by decide)

/-- Counterexample to C9 as stated: `resolve_anomaly` has no
already-resolved guard, so a second resolution action mutates an
already-resolved record again, overwriting its resolver, notes and
resolution time. -/
theorem resolve_anomaly_not_terminal_counterexample :
    resolvedLog.is_resolved = true
      ∧ resolvedLog.resolved_by = some 7
      ∧ ((resolve_anomaly dbResolved 1 9 "second" 10).1.anomalies.head?.map
            AnomalyLog.resolved_by) = some (some 9)
      ∧ (resolve_anomaly dbResolved 1 9 "second" 10).1.anomalies
          ≠ dbResolved.anomalies := by
  exact ⟨rfl, rfl, rfl, by decide⟩

/-- Helper: `mark_attendance` only ever appends to the anomaly table. -/
theorem mark_attendance_anomalies_append_only (mfc : ℚ) (cmp : Comparators) (db : DB)
    (req : AttendanceMarkRequest) (ip : Option String) (now : Nat) :
    (mark_attendance mfc cmp db req ip now).1.anomalies.take db.anomalies.length
      = db.anomalies := by
  cases hstu : get_student db req.student_id with
  | none => simp [mark_attendance, hstu]
  | some student =>
    cases hses : get_session db req.session_id with
    | none => simp [mark_attendance, hstu, hses]
    | some session =>
      cases hact : session.is_active with
      | false => simp [mark_attendance, hstu, hses, hact]
      | true =>
        cases hex : (check_existing_attendance db req.student_id req.session_id).isSome with
        | true => simp [mark_attendance, hstu, hses, hact, hex]
        | false =>
          cases hen : student.is_enrolled with
          | false => simp [mark_attendance, hstu, hses, hact, hex, hen]
          | true =>
            cases hvd : (verify_student mfc cmp student.roll_no student.name
                student.face_embedding student.fingerprint_hash
                req.face_image req.id_card_image req.fingerprint_token).anomaly_detected <;>
              cases hvs : (verify_student mfc cmp student.roll_no student.name
                  student.face_embedding student.fingerprint_hash
                  req.face_image req.id_card_image req.fingerprint_token).success <;>
                simp [mark_attendance, hstu, hses, hact, hex, hen, hvd, hvs,
                  List.take_left]

/-- C9 (amended): anomaly records are never deleted and a resolution
action is an overwrite, not a terminal transition: `resolve_anomaly`
keeps the anomaly table's length, leaves every record with a different
id untouched, and sets resolved=true with the new resolver, notes and
time on the record with the target id even when it was already resolved;
`mark_attendance` only ever appends anomaly rows. -/
theorem resolve_anomaly_overwrite_never_delete (db : DB) (i rb : Nat)
    (notes : String) (now : Nat) :
    ((resolve_anomaly db i rb notes now).1.anomalies.length = db.anomalies.length)
      ∧ (∀ a ∈ db.anomalies, a.id ≠ i →
          a ∈ (resolve_anomaly db i rb notes now).1.anomalies)
      ∧ (∀ a ∈ db.anomalies, a.id = i →
          ({ a with
              is_resolved := true
              resolved_by := some rb
              resolution_notes := some notes
              resolved_at := some now } : AnomalyLog)
            ∈ (resolve_anomaly db i rb notes now).1.anomalies)
      ∧ (∀ (mfc : ℚ) (cmp : Comparators) (req : AttendanceMarkRequest)
          (ip : Option String) (now2 : Nat),
          (mark_attendance mfc cmp db req ip now2).1.anomalies.take db.anomalies.length
            = db.anomalies) := by
  refine ⟨?_, ?_, ?_, ?_⟩
  · unfold resolve_anomaly
    cases hf : db.anomalies.find? (fun b => b.id == i) <;> simp
  · intro a ha hne
    unfold resolve_anomaly
    cases hf : db.anomalies.find? (fun b => b.id == i) with
    | none => simpa using ha
    | some b =>
      refine List.mem_map.mpr ⟨a, ha, ?_⟩
      simp [hne]
  · intro a ha hi
    unfold resolve_anomaly
    cases hf : db.anomalies.find? (fun b => b.id == i) with
    | none =>
      exfalso
      have := List.find?_eq_none.mp hf a ha
      simp [hi] at this
    | some b =>
      refine List.mem_map.mpr ⟨a, ha, ?_⟩
      simp [hi]
  · intro mfc cmp req ip now2
    exact mark_attendance_anomalies_append_only mfc cmp db req ip now2

/-- Witness for C9 (amended) at the store holding one already-resolved
record. -/
theorem resolve_anomaly_overwrite_never_delete_witness :
    ((resolve_anomaly dbResolved 1 9 "second" 10).1.anomalies.length
        = dbResolved.anomalies.length)
      ∧ ({ resolvedLog with
            is_resolved := true
            resolved_by := some 9
            resolution_notes := some "second"
            resolved_at := some 10 } : AnomalyLog)
          ∈ (resolve_anomaly dbResolved 1 9 "second" 10).1.anomalies := by
  have h := resolve_anomaly_overwrite_never_delete dbResolved 1 9 "second" 10
  exact ⟨h.1, h.2.2.1 resolvedLog (by decide) rfl⟩

/-- Helper: the best-so-far fold of `find_matching_face` computes the
first-encountered maximal comparator match with confidence strictly
above the accumulator's. -/
theorem foldl_best_eq_bestMatchAbove (fr : FaceRecognition) (img : List Nat) :
    ∀ (l : List (Nat × List Nat)) (a : Option Nat) (c0 : ℚ),
      l.foldl (fun best p =>
          let stored := fr.deserialize_embedding p.2
          let c := fr.compare_faces stored img
          if c.1 && best.2 < c.2 then (some p.1, c.2) else best) (a, c0)
        = (match bestMatchAbove fr img c0 l with
           | some r => (some r.1, r.2)
           | none => (a, c0)) := by
  intro l
  induction l with
  | nil =>
    intro a c0
    simp [bestMatchAbove]
  | cons p rest ih =>
    intro a c0
    simp only [List.foldl_cons, bestMatchAbove]
    by_cases hc : ((fr.compare_faces (fr.deserialize_embedding p.2) img).1
        && decide (c0 < (fr.compare_faces (fr.deserialize_embedding p.2) img).2)) = true
    · rw [if_pos hc, if_pos hc,
        ih (some p.1) (fr.compare_faces (fr.deserialize_embedding p.2) img).2]
      cases hb : bestMatchAbove fr img
          (fr.compare_faces (fr.deserialize_embedding p.2) img).2 rest <;> simp [hb]
    · rw [if_neg hc, if_neg hc]
      exact ih a c0

/-- Helper: the reference selection returns nothing exactly when no
comparator match has confidence strictly above the threshold. -/
theorem bestMatchAbove_eq_none_iff (fr : FaceRecognition) (img : List Nat) :
    ∀ (l : List (Nat × List Nat)) (c0 : ℚ),
      bestMatchAbove fr img c0 l = none
        ↔ ∀ p ∈ l, ¬((fr.compare_faces (fr.deserialize_embedding p.2) img).1 = true
            ∧ c0 < (fr.compare_faces (fr.deserialize_embedding p.2) img).2) := by
  intro l
  induction l with
  | nil =>
    intro c0
    simp [bestMatchAbove]
  | cons p rest ih =>
    intro c0
    simp only [bestMatchAbove, List.mem_cons]
    by_cases hc : ((fr.compare_faces (fr.deserialize_embedding p.2) img).1
        && decide (c0 < (fr.compare_faces (fr.deserialize_embedding p.2) img).2)) = true
    · rw [if_pos hc]
      simp only [Bool.and_eq_true, decide_eq_true_eq] at hc
      constructor
      · intro h
        cases hb : bestMatchAbove fr img
            (fr.compare_faces (fr.deserialize_embedding p.2) img).2 rest <;>
          rw [hb] at h <;> cases h
      · intro h
        exact absurd hc (h p (Or.inl rfl))
    · rw [if_neg hc]
      rw [ih c0]
      simp only [Bool.and_eq_true, decide_eq_true_eq] at hc
      constructor
      · intro h q hq
        rcases hq with hq | hq
        · subst hq
          exact hc
        · exact h q hq
      · intro h q hq
        exact h q (Or.inr hq)

/-- Helper: when the reference selection returns a match, its confidence
strictly exceeds the threshold, it belongs to the list, and it is
maximal among all comparator matches in the list. -/
theorem bestMatchAbove_spec (fr : FaceRecognition) (img : List Nat) :
    ∀ (l : List (Nat × List Nat)) (c0 : ℚ) (s : Nat) (c : ℚ),
      bestMatchAbove fr img c0 l = some (s, c) →
        c0 < c
          ∧ (∃ p ∈ l, p.1 = s
              ∧ (fr.compare_faces (fr.deserialize_embedding p.2) img).1 = true
              ∧ (fr.compare_faces (fr.deserialize_embedding p.2) img).2 = c)
          ∧ (∀ p ∈ l, (fr.compare_faces (fr.deserialize_embedding p.2) img).1 = true →
              (fr.compare_faces (fr.deserialize_embedding p.2) img).2 ≤ c) := by
  intro l
  induction l with
  | nil =>
    intro c0 s c h
    simp [bestMatchAbove] at h
  | cons p rest ih =>
    intro c0 s c h
    simp only [bestMatchAbove] at h
    by_cases hc : ((fr.compare_faces (fr.deserialize_embedding p.2) img).1
        && decide (c0 < (fr.compare_faces (fr.deserialize_embedding p.2) img).2)) = true
    · rw [if_pos hc] at h
      simp only [Bool.and_eq_true, decide_eq_true_eq] at hc
      cases hb : bestMatchAbove fr img
          (fr.compare_faces (fr.deserialize_embedding p.2) img).2 rest with
      | none =>
        rw [hb] at h
        injection h with h1
        have hs : p.1 = s := congrArg Prod.fst h1
        have hcc : (fr.compare_faces (fr.deserialize_embedding p.2) img).2 = c :=
          congrArg Prod.snd h1
        have hrest := (bestMatchAbove_eq_none_iff fr img rest _).mp hb
        refine ⟨hcc ▸ hc.2, ⟨p, List.mem_cons_self p rest, hs, hc.1, hcc⟩, ?_⟩
        intro q hq hmq
        rcases List.mem_cons.mp hq with hq | hq
        · subst hq
          exact le_of_eq hcc
        · have := hrest q hq
          rw [hcc] at this
          by_contra hgt
          exact this ⟨hmq, lt_of_not_le hgt⟩
      | some r =>
        rw [hb] at h
        injection h with h1
        subst h1
        obtain ⟨hlt, ⟨q, hq, hqs, hqm, hqc⟩, hmax⟩ := ih _ _ _ hb
        refine ⟨lt_trans hc.2 hlt, ⟨q, List.mem_cons_of_mem p hq, hqs, hqm, hqc⟩, ?_⟩
        intro q2 hq2 hmq2
        rcases List.mem_cons.mp hq2 with hq2 | hq2
        · subst hq2
          exact le_of_lt hlt
        · exact hmax q2 hq2 hmq2
    · rw [if_neg hc] at h
      simp only [Bool.and_eq_true, decide_eq_true_eq, not_and] at hc
      obtain ⟨hlt, ⟨q, hq, hqs, hqm, hqc⟩, hmax⟩ := ih c0 s c h
      refine ⟨hlt, ⟨q, List.mem_cons_of_mem p hq, hqs, hqm, hqc⟩, ?_⟩
      intro q2 hq2 hmq2
      rcases List.mem_cons.mp hq2 with hq2 | hq2
      · subst hq2
        have hle : (fr.compare_faces (fr.deserialize_embedding q2.2) img).2 ≤ c0 :=
          le_of_not_lt (hc hmq2)
        exact le_of_lt (lt_of_le_of_lt hle hlt)
      · exact hmax q2 hq2 hmq2

/-- Counterexample to C6 as stated: a comparator-classified match with
confidence 0 exists in the scanned list, yet `find_matching_face` and
`check_duplicate_face` both return nothing, because the running best
starts at 0 and only strictly greater confidences are kept; moreover the
check's return value carries no confidence at all. -/
theorem zero_confidence_match_ignored_counterexample :
    (frZero.compare_faces (frZero.deserialize_embedding [5]) [0]).1 = true
      ∧ find_matching_face frZero [0] [(3, [5])] = none
      ∧ check_duplicate_face frZero dbDup "b64" 2 "C1" = none :=
  ⟨rfl, by decide, by decide⟩

/-- C6 (amended): `find_matching_face` (when embedding generation
succeeds) returns exactly the first-encountered comparator match of
maximal confidence among those with confidence strictly greater than 0,
together with that confidence, and nothing when no such
positive-confidence match exists; `check_duplicate_face`, on a nonempty
candidate scan with a decodable image, surfaces only the matched
identity's reference — the confidence is dropped. -/
theorem find_matching_face_best_match (fr : FaceRecognition) (img : List Nat)
    (embs : List (Nat × List Nat)) (e : List ℚ) (b64 : String) (claiming : Nat)
    (college : String) (db : DB)
    (hgen : fr.generate_embedding img = some e) :
    (find_matching_face fr img embs = bestMatchAbove fr img 0 embs)
      ∧ (bestMatchAbove fr img 0 embs = none
          ↔ ∀ p ∈ embs, ¬((fr.compare_faces (fr.deserialize_embedding p.2) img).1 = true
              ∧ 0 < (fr.compare_faces (fr.deserialize_embedding p.2) img).2))
      ∧ (∀ s c, bestMatchAbove fr img 0 embs = some (s, c) →
          0 < c
            ∧ (∃ p ∈ embs, p.1 = s
                ∧ (fr.compare_faces (fr.deserialize_embedding p.2) img).1 = true
                ∧ (fr.compare_faces (fr.deserialize_embedding p.2) img).2 = c)
            ∧ (∀ p ∈ embs,
                (fr.compare_faces (fr.deserialize_embedding p.2) img).1 = true →
                (fr.compare_faces (fr.deserialize_embedding p.2) img).2 ≤ c))
      ∧ (duplicate_face_candidates db claiming college ≠ [] →
          fr.decode_base64_image b64 = some img →
          check_duplicate_face fr db b64 claiming college
            = (find_matching_face fr img
                ((duplicate_face_candidates db claiming college).map
                  fun s => (s.id, s.face_embedding.getD []))).map Prod.fst) := by
  refine ⟨?_, bestMatchAbove_eq_none_iff fr img embs 0,
    fun s c h => bestMatchAbove_spec fr img embs 0 s c h, ?_⟩
  · unfold find_matching_face
    rw [hgen]
    rw [foldl_best_eq_bestMatchAbove fr img embs none 0]
    cases hb : bestMatchAbove fr img 0 embs <;> simp [hb]
  · intro hne hdec
    unfold check_duplicate_face
    rw [hdec]
    have hemp : (duplicate_face_candidates db claiming college).isEmpty = false := by
      cases hcand : duplicate_face_candidates db claiming college with
      | nil => exact absurd hcand hne
      | cons x xs => simp
    simp only [hemp, Bool.false_eq_true, if_false]
    cases hf : find_matching_face fr img
        ((duplicate_face_candidates db claiming college).map
          fun s => (s.id, s.face_embedding.getD [])) <;> simp [hf]

/-- Witness for C6 (amended) at a one-candidate store whose comparator
matches with confidence 0.9. -/
theorem find_matching_face_best_match_witness :
    (find_matching_face frMatch [0] [(3, [5])] = bestMatchAbove frMatch [0] 0 [(3, [5])])
      ∧ check_duplicate_face frMatch dbDup "b64" 2 "C1"
        = (find_matching_face frMatch [0]
            ((duplicate_face_candidates dbDup 2 "C1").map
              fun s => (s.id, s.face_embedding.getD []))).map Prod.fst := by
  have h := find_matching_face_best_match frMatch [0] [(3, [5])] [] "b64" 2 "C1" dbDup rfl
  exact ⟨h.1, h.2.2.2 (by decide) rfl⟩

end AttendanceCore
